import Mathlib

/-!
Verification development for the attitude_orbit_simulator repository.

The definitions below are a shallow embedding of the C++ sources into Lean,
with IEEE doubles modelled as real numbers.  Each definition mirrors one
function of the repository (file and symbol named in its doc comment).
Theorems about the claims of the specification follow the definitions.
-/

noncomputable section

/-! ## Core linear algebra (source/aos/core/types.hpp: vec3, mat3x3, quat) -/

/-- Shallow embedding of `aos::vec3` (Eigen 3-vector of doubles). -/
structure Vec3 where
  x : ℝ
  y : ℝ
  z : ℝ
deriving DecidableEq

namespace Vec3

/-- Component-wise addition. -/
def add (a b : Vec3) : Vec3 := ⟨a.x + b.x, a.y + b.y, a.z + b.z⟩

/-- Component-wise subtraction. -/
def sub (a b : Vec3) : Vec3 := ⟨a.x - b.x, a.y - b.y, a.z - b.z⟩

/-- Scalar multiplication. -/
def smul (c : ℝ) (a : Vec3) : Vec3 := ⟨c * a.x, c * a.y, c * a.z⟩

/-- Negation. -/
def neg (a : Vec3) : Vec3 := ⟨-a.x, -a.y, -a.z⟩

/-- Euclidean dot product (Eigen `dot`). -/
def dot (a b : Vec3) : ℝ := a.x * b.x + a.y * b.y + a.z * b.z

/-- Cross product (Eigen `cross`). -/
def cross (a b : Vec3) : Vec3 :=
  ⟨a.y * b.z - a.z * b.y, a.z * b.x - a.x * b.z, a.x * b.y - a.y * b.x⟩

/-- Squared Euclidean norm (Eigen `squaredNorm`). -/
def normSq (a : Vec3) : ℝ := a.x * a.x + a.y * a.y + a.z * a.z

/-- Euclidean norm (Eigen `norm`). -/
def norm (a : Vec3) : ℝ := Real.sqrt a.normSq

/-- Maximum absolute component (Eigen `cwiseAbs().maxCoeff()` on a 3-vector). -/
def maxAbs (a : Vec3) : ℝ := max |a.x| (max |a.y| |a.z|)

/-- The zero vector. -/
def zero : Vec3 := ⟨0, 0, 0⟩

end Vec3

/-- Shallow embedding of `aos::mat3x3` (row-major 3x3 matrix), stored as rows. -/
structure Mat3 where
  r0 : Vec3
  r1 : Vec3
  r2 : Vec3

namespace Mat3

/-- Matrix-vector product. -/
def mulVec (m : Mat3) (v : Vec3) : Vec3 := ⟨m.r0.dot v, m.r1.dot v, m.r2.dot v⟩

/-- Column of a matrix, used to express products and transposes. -/
def col0 (m : Mat3) : Vec3 := ⟨m.r0.x, m.r1.x, m.r2.x⟩

/-- Second column. -/
def col1 (m : Mat3) : Vec3 := ⟨m.r0.y, m.r1.y, m.r2.y⟩

/-- Third column. -/
def col2 (m : Mat3) : Vec3 := ⟨m.r0.z, m.r1.z, m.r2.z⟩

/-- Matrix product. -/
def mul (a b : Mat3) : Mat3 :=
  ⟨⟨a.r0.dot b.col0, a.r0.dot b.col1, a.r0.dot b.col2⟩,
   ⟨a.r1.dot b.col0, a.r1.dot b.col1, a.r1.dot b.col2⟩,
   ⟨a.r2.dot b.col0, a.r2.dot b.col1, a.r2.dot b.col2⟩⟩

/-- Matrix transpose. -/
def transpose (m : Mat3) : Mat3 := ⟨m.col0, m.col1, m.col2⟩

/-- Identity matrix. -/
def idm : Mat3 := ⟨⟨1, 0, 0⟩, ⟨0, 1, 0⟩, ⟨0, 0, 1⟩⟩

end Mat3

/-- Shallow embedding of `aos::quat` (Eigen quaternion, scalar part `w`). -/
structure QuatR where
  w : ℝ
  x : ℝ
  y : ℝ
  z : ℝ

namespace QuatR

/-- Quaternion (4-vector) norm, as used by Eigen `norm()` / `normalize()`. -/
def norm (q : QuatR) : ℝ := Real.sqrt (q.w * q.w + q.x * q.x + q.y * q.y + q.z * q.z)

/-- Scaling the four coefficients. -/
def smul (c : ℝ) (q : QuatR) : QuatR := ⟨c * q.w, c * q.x, c * q.y, c * q.z⟩

/-- Eigen `normalized()` / `normalize()`: divide the coefficients by the norm. -/
def normalize (q : QuatR) : QuatR := q.smul (1 / q.norm)

/-- Hamilton product, Eigen `operator*` on quaternions. -/
def hmul (a b : QuatR) : QuatR :=
  ⟨a.w * b.w - a.x * b.x - a.y * b.y - a.z * b.z,
   a.w * b.x + a.x * b.w + a.y * b.z - a.z * b.y,
   a.w * b.y - a.x * b.z + a.y * b.w + a.z * b.x,
   a.w * b.z + a.x * b.y - a.y * b.x + a.z * b.w⟩

/-- Rotation matrix of a (unit) quaternion, Eigen `toRotationMatrix()`. -/
def toMat (q : QuatR) : Mat3 :=
  ⟨⟨1 - 2 * (q.y * q.y + q.z * q.z), 2 * (q.x * q.y - q.z * q.w), 2 * (q.x * q.z + q.y * q.w)⟩,
   ⟨2 * (q.x * q.y + q.z * q.w), 1 - 2 * (q.x * q.x + q.z * q.z), 2 * (q.y * q.z - q.x * q.w)⟩,
   ⟨2 * (q.x * q.z - q.y * q.w), 2 * (q.y * q.z + q.x * q.w), 1 - 2 * (q.x * q.x + q.y * q.y)⟩⟩

/-- Maximum absolute coefficient (Eigen `coeffs().cwiseAbs().maxCoeff()`). -/
def maxAbs (q : QuatR) : ℝ := max |q.x| (max |q.y| (max |q.z| |q.w|))

/-- Identity quaternion. -/
def idq : QuatR := ⟨1, 0, 0, 0⟩

end QuatR

/-! ## Constants (source/aos/core/constants.hpp and component headers) -/

/-- Earth gravitational parameter, m^3/s^2 (`constants.hpp`, also
`orbital_converter::earth_mu`). -/
def earth_mu_m3_s2 : ℝ := 3.986004418e14

/-- Earth rotation rate, rad/s (`constants.hpp`). -/
def earth_rotation_rate_rad_s : ℝ := 7.2921150e-5

/-- Seconds per Julian year (`constants.hpp`). -/
def seconds_per_year : ℝ := 365.25 * 24.0 * 3600.0

/-- Vacuum permeability 4*pi*1e-7 (`hysteresis_rod.hpp`). -/
def vacuum_permeability : ℝ := 4.0 * Real.pi * 1e-7

/-- Denominator stability threshold (`hysteresis_rod.hpp: epsilon_denominator`). -/
def epsilon_denominator : ℝ := 1e-9

/-- Langevin Taylor-branch threshold (`hysteresis_rod.hpp: epsilon_langevin`). -/
def epsilon_langevin : ℝ := 1e-6

/-- Static-field threshold on dH/dt (`hysteresis_rod.hpp: epsilon_dh_dt`). -/
def epsilon_dh_dt : ℝ := 1e-12

/-- Nanotesla-to-tesla scale (`constants.hpp: nt_to_t`), used by the
environment model under the name `nanotesla_to_tesla`. -/
def nanotesla_to_tesla : ℝ := 1e-9

/-- Modelled from the spec: the constant `min_k_value` is used by
`hysteresis_rod.cpp` but its declaration is not among the provided sources;
section 4.4 step 7 of the spec calls it the floor `k_floor` of the
susceptibility cap `M_s / max(k, k_floor)` without fixing a value.  We take
the generic small epsilon 1e-6 of `constants.hpp`. -/
def min_k_value : ℝ := 1e-6

/-- Modelled from the spec: the constant `tolerance_causality` is used by
`hysteresis_rod.cpp` but its declaration is not among the provided sources;
section 4.4 step 10 of the spec calls it the causality tolerance without
fixing a value.  We take the 1e-9 of the neighbouring thresholds. -/
def tolerance_causality : ℝ := 1e-9

/-- Modelled from the spec: the constant `dt_gradient` is used by
`environment.cpp` but its declaration is not among the provided sources;
section 4.1 of the spec fixes the recommended micro-step of the material
derivative to 1 second. -/
def dt_gradient : ℝ := 1.0

/-- C semantics of `std::clamp(v, lo, hi)`. -/
def clampD (v lo hi : ℝ) : ℝ := if v < lo then lo else if hi < v then hi else v

/-- C semantics of `std::copysign(mag, sgn)`: magnitude of the first argument
with the sign of the second (a non-negative second argument gives `|mag|`). -/
def copysignR (mag sgn : ℝ) : ℝ := if sgn < 0 then -|mag| else |mag|

/-- The smallest positive normal double, `std::numeric_limits<double>::min()`,
exactly 2^(-1022). -/
def dbl_min : ℝ := ((2 : ℝ) ^ (1022 : ℕ))⁻¹

/-! ## Hysteresis rod (source/aos/components/hysteresis_rod.{hpp,cpp}) -/

/-- Jiles-Atherton parameter bundle (`hysteresis_rod::ja_parameters`). -/
structure JAParams where
  ms : ℝ
  a : ℝ
  k : ℝ
  c : ℝ
  alpha : ℝ

/-- The HyMu-80 parameter set (`ja_parameters::hymu80`). -/
def JAParams.hymu80 : JAParams := ⟨6.0e5, 6.5, 4.0, 0.05, 1.0e-5⟩

/-- A hysteresis rod (`hysteresis_rod`): volume, normalized body-frame
orientation, Jiles-Atherton parameters. -/
structure RodM where
  volume : ℝ
  orientation_body : Vec3
  params : JAParams

/-- Effective field H + alpha * M (`hysteresis_rod::calculate_h_eff`). -/
def calculate_h_eff (p : JAParams) (h_along_rod m_val : ℝ) : ℝ :=
  h_along_rod + p.alpha * m_val

/-- Anhysteretic magnetization via the Langevin function
(`hysteresis_rod::calculate_anhysteretic`); the Taylor branch of the source
keeps only the linear term. -/
def calculate_anhysteretic (p : JAParams) (h_eff_am : ℝ) : ℝ :=
  let lx := h_eff_am / p.a
  if |lx| < epsilon_langevin then p.ms * (lx / 3.0)
  else p.ms * (1.0 / Real.tanh lx - 1.0 / lx)

/-- Clamped irreversible magnetization used by the derivative
(`hysteresis_rod.cpp:122`). -/
def ja_m_clamped (p : JAParams) (m_irr_am : ℝ) : ℝ := clampD m_irr_am (-p.ms) p.ms

/-- Anhysteretic magnetization at the effective field of the clamped state
(`hysteresis_rod.cpp:123-124`). -/
def ja_m_an (p : JAParams) (m_irr_am h_along_rod : ℝ) : ℝ :=
  calculate_anhysteretic p (calculate_h_eff p h_along_rod (ja_m_clamped p m_irr_am))

/-- Direction of field change delta = sign of dH/dt (`hysteresis_rod.cpp:125`). -/
def ja_delta (dh_dt : ℝ) : ℝ := if dh_dt > 0 then 1.0 else -1.0

/-- Numerator M_an - clamp(M_irr) of the Jiles-Atherton equation
(`hysteresis_rod.cpp:126`). -/
def ja_numerator (p : JAParams) (m_irr_am h_along_rod : ℝ) : ℝ :=
  ja_m_an p m_irr_am h_along_rod - ja_m_clamped p m_irr_am

/-- Denominator k*delta - alpha*(M_an - clamp(M_irr)) (`hysteresis_rod.cpp:127`). -/
def ja_denominator (p : JAParams) (m_irr_am h_along_rod dh_dt : ℝ) : ℝ :=
  p.k * ja_delta dh_dt - p.alpha * ja_numerator p m_irr_am h_along_rod

/-- Susceptibility magnitude cap M_s / max(k, min_k_value)
(`hysteresis_rod.cpp:128`). -/
def ja_max_chi (p : JAParams) : ℝ := p.ms / max p.k min_k_value

/-- The local variable `dmirr_dh` of `magnetization_derivative`
(hysteresis_rod.cpp:130-147): singularity handling when the denominator is
tiny, otherwise the standard Jiles-Atherton ratio with a sign-preserving
magnitude cap. -/
def ja_dmirr_dh (p : JAParams) (m_irr_am h_along_rod dh_dt : ℝ) : ℝ :=
  let num := ja_numerator p m_irr_am h_along_rod
  let den := ja_denominator p m_irr_am h_along_rod dh_dt
  let max_chi := ja_max_chi p
  if |den| < epsilon_denominator then
    if |num| < epsilon_denominator then 0 else copysignR max_chi num
  else if |num / den| > max_chi then copysignR max_chi (num / den)
  else num / den

/-- Scalar Jiles-Atherton derivative
(`hysteresis_rod::magnetization_derivative(double, double, double)`,
`hysteresis_rod.cpp:108-166`). -/
def magnetization_derivative (p : JAParams) (m_irr_am h_along_rod dh_dt : ℝ) : ℝ :=
  if m_irr_am ≥ p.ms ∧ dh_dt > 0 then 0
  else if m_irr_am ≤ -p.ms ∧ dh_dt < 0 then 0
  else if |dh_dt| < epsilon_dh_dt then 0
  else
    let dm_irr_dt := ja_dmirr_dh p m_irr_am h_along_rod dh_dt * dh_dt
    if dh_dt > 0 ∧ dm_irr_dt < -tolerance_causality then 0
    else if dh_dt < 0 ∧ dm_irr_dt > tolerance_causality then 0
    else dm_irr_dt

/-- Vector form of the derivative: project B and its rate on the rod axis and
divide by mu_0 (`hysteresis_rod::magnetization_derivative(double, vec3, vec3)`). -/
def magnetization_derivative_vec (rod : RodM) (m_irr_am : ℝ) (b_body_t b_dot_body_t : Vec3) : ℝ :=
  magnetization_derivative rod.params m_irr_am
    (b_body_t.dot rod.orientation_body / vacuum_permeability)
    (b_dot_body_t.dot rod.orientation_body / vacuum_permeability)

/-- Total dipole moment of a rod (`hysteresis_rod::magnetic_moment`). -/
def rod_magnetic_moment (rod : RodM) (m_irr_am : ℝ) (b_body_t : Vec3) : Vec3 :=
  let h_applied := b_body_t.dot rod.orientation_body / vacuum_permeability
  let m_irr_clamped := clampD m_irr_am (-rod.params.ms) rod.params.ms
  let h_eff := calculate_h_eff rod.params h_applied m_irr_clamped
  let m_an := calculate_anhysteretic rod.params h_eff
  let m_total := (1.0 - rod.params.c) * m_irr_clamped + rod.params.c * m_an
  Vec3.smul (m_total * rod.volume) rod.orientation_body

/-! ## Spacecraft (source/aos/components/spacecraft.{hpp,cpp}) -/

/-- Property bundle of the spacecraft (`spacecraft::properties`). -/
structure SpacecraftProps where
  mass_g : ℝ
  dim_m : Vec3
  magnet_orientation : Vec3
  magnet_remanence : ℝ
  magnet_length : ℝ
  magnet_diameter : ℝ
  hysteresis_rod_volume : ℝ
  hysteresis_rod_orientations : List Vec3
  hysteresis_params : JAParams

/-- Box inertia tensor (`spacecraft::get_inertia_tensor(m, a, b, c)`). -/
def get_inertia_tensor (m a b c : ℝ) : Mat3 :=
  ⟨⟨(1.0 / 12.0) * m * (b * b + c * c), 0, 0⟩,
   ⟨0, (1.0 / 12.0) * m * (a * a + c * c), 0⟩,
   ⟨0, 0, (1.0 / 12.0) * m * (a * a + b * b)⟩⟩

/-- Inertia tensor stored by the delegating constructor
`spacecraft::spacecraft(const properties&)` (`spacecraft.hpp:29-30`): the raw
`mass_g` field is passed to `get_inertia_tensor` together with the three
dimensions. -/
def spacecraft_stored_inertia (p : SpacecraftProps) : Mat3 :=
  get_inertia_tensor p.mass_g p.dim_m.x p.dim_m.y p.dim_m.z

/-- Modelled from the claim wording of C1: the x-axis inertia the spec
prescribes, (1/12) * m_kg * (a_y^2 + a_z^2) with the mass field converted
from grams to kilograms. -/
def spec_inertia_xx (p : SpacecraftProps) : ℝ :=
  (1.0 / 12.0) * (p.mass_g / 1000.0) * (p.dim_m.y * p.dim_m.y + p.dim_m.z * p.dim_m.z)

/-! ## Keplerian-to-Cartesian conversion
(orbital_mechanics.hpp / orbital_mechanics.cpp, also inlined in
environment.hpp lines 101-145) -/

/-- Keplerian element set (`aos::keplerian_elements`). -/
structure KeplerElements where
  semi_major_axis_m : ℝ
  eccentricity : ℝ
  inclination_rad : ℝ
  raan_rad : ℝ
  arg_of_periapsis_rad : ℝ
  mean_anomaly_rad : ℝ

/-- Newton-Raphson tolerance (`orbital_converter::epsilon`). -/
def kepler_epsilon : ℝ := 1e-9

/-- Newton-Raphson iteration cap (`orbital_converter::max_iter`). -/
def kepler_max_iter : ℕ := 100

/-- The Newton-Raphson loop of `orbital_converter::to_cartesian`
(`for (int i = 0; i < max_iter; ++i) ...`), fuel-indexed: each unit of fuel
is one loop iteration; the boolean records whether the `break` on
`|delta| < epsilon` was reached. -/
def keplerLoop (ecc m0 : ℝ) : ℕ → ℝ → ℝ × Bool
  | 0, e => (e, false)
  | n + 1, e =>
    let delta := e - ecc * Real.sin e - m0
    if |delta| < kepler_epsilon then (e, true)
    else keplerLoop ecc m0 n (e - delta / (1.0 - ecc * Real.cos e))

/-- Eccentric anomaly solver: the loop started at `E = M0` with the full
iteration budget. -/
def solveKepler (ecc m0 : ℝ) : ℝ × Bool := keplerLoop ecc m0 kepler_max_iter m0

/-- Axis-angle rotation about the z axis (Eigen `aaxis(theta, UnitZ())`). -/
def rotZ (theta : ℝ) : Mat3 :=
  ⟨⟨Real.cos theta, -Real.sin theta, 0⟩,
   ⟨Real.sin theta, Real.cos theta, 0⟩,
   ⟨0, 0, 1⟩⟩

/-- Axis-angle rotation about the x axis (Eigen `aaxis(theta, UnitX())`). -/
def rotX (theta : ℝ) : Mat3 :=
  ⟨⟨1, 0, 0⟩,
   ⟨0, Real.cos theta, -Real.sin theta⟩,
   ⟨0, Real.sin theta, Real.cos theta⟩⟩

/-- True anomaly from the eccentric anomaly
(`to_cartesian`: `nu = 2 * atan(sqrt_factor * tan_e_2)`). -/
def kepler_true_anomaly (el : KeplerElements) (ecc_anom : ℝ) : ℝ :=
  2.0 * Real.arctan
    (Real.sqrt ((1.0 + el.eccentricity) / (1.0 - el.eccentricity)) * Real.tan (ecc_anom / 2.0))

/-- Semi-latus rectum p = a (1 - e^2) (`to_cartesian`). -/
def kepler_p (el : KeplerElements) : ℝ :=
  el.semi_major_axis_m * (1.0 - el.eccentricity * el.eccentricity)

/-- Radial distance r = p / (1 + e cos nu) (`to_cartesian`). -/
def kepler_r (el : KeplerElements) (nu : ℝ) : ℝ :=
  kepler_p el / (1.0 + el.eccentricity * Real.cos nu)

/-- Flight-path velocity factor h = sqrt(mu / p) (`to_cartesian`). -/
def kepler_h_factor (el : KeplerElements) : ℝ := Real.sqrt (earth_mu_m3_s2 / kepler_p el)

/-- The 3-1-3 Euler rotation of `to_cartesian`:
`(rot_raan * rot_inc * rot_omega).toRotationMatrix()`. -/
def pqw_to_eci (el : KeplerElements) : Mat3 :=
  (rotZ el.raan_rad).mul ((rotX el.inclination_rad).mul (rotZ el.arg_of_periapsis_rad))

/-- Perifocal position vector (`to_cartesian`: `r_pqw`). -/
def kepler_r_pqw (el : KeplerElements) (nu : ℝ) : Vec3 :=
  ⟨kepler_r el nu * Real.cos nu, kepler_r el nu * Real.sin nu, 0.0⟩

/-- Perifocal velocity vector (`to_cartesian`: `v_pqw`). -/
def kepler_v_pqw (el : KeplerElements) (nu : ℝ) : Vec3 :=
  ⟨-kepler_h_factor el * Real.sin nu,
   kepler_h_factor el * (el.eccentricity + Real.cos nu), 0.0⟩

/-- Downstream computation of `orbital_converter::to_cartesian` from an
eccentric anomaly: true anomaly, perifocal state, 3-1-3 rotation to the
inertial frame. -/
def cartesianFromAnomaly (el : KeplerElements) (ecc_anom : ℝ) : Vec3 × Vec3 :=
  let nu := kepler_true_anomaly el ecc_anom
  ((pqw_to_eci el).mulVec (kepler_r_pqw el nu), (pqw_to_eci el).mulVec (kepler_v_pqw el nu))

/-- Full conversion `orbital_converter::to_cartesian`: solve Kepler's
equation, then build the Cartesian state from whatever eccentric anomaly the
loop ends with. -/
def to_cartesian (el : KeplerElements) : Vec3 × Vec3 :=
  cartesianFromAnomaly el (solveKepler el.eccentricity el.mean_anomaly_rad).1

/-! ## Two-body orbit derivative with singularity guard (src/unnamed/part_000) -/

/-- Gravitational parameter of `orbit_derivatives` (part_000). -/
def standard_gravitational_parameter_earth : ℝ := 3.986004418e14

/-- Shallow embedding of `aos::orbit_derivatives` (part_000): the `throw` on
a near-zero position norm becomes `none`; otherwise the packed
(velocity, acceleration) derivative is returned. -/
def orbit_derivatives (position velocity : Vec3) : Option (Vec3 × Vec3) :=
  let r_norm := position.norm
  if r_norm < 1e-6 then none
  else
    let r_norm_cubed := r_norm * r_norm * r_norm
    some (velocity, Vec3.smul (-(standard_gravitational_parameter_earth / r_norm_cubed)) position)

/-! ## Environment model (source/aos/environment/environment.{hpp,cpp}) -/

/-- Opaque harmonic/geodetic collaborators of the environment model
(GeographicLib `Geocentric::Reverse`, `MagneticModel`, `GravityModel`),
abstracted as pure functions.  `reverseGeo` returns geodetic latitude,
longitude, height and the ENU-to-ECEF rotation for an ECEF position;
`magneticAt year lat lon h` returns the field in nT in the local frame;
`gravityAt lat lon h` returns the gravity vector in the local frame;
`massConstant` is `GravityModel::MassConstant()`. -/
structure EnvModels where
  reverseGeo : Vec3 → ℝ × ℝ × ℝ × Mat3
  magneticAt : ℝ → ℝ → ℝ → ℝ → Vec3
  gravityAt : ℝ → ℝ → ℝ → Vec3
  massConstant : ℝ

/-- An environment model instance (`environment_model`): start epoch,
collaborators. -/
structure EnvModel where
  start_year_decimal : ℝ
  models : EnvModels

/-- The interior-mutable computation cache (`environment_model::computation_cache`). -/
structure EnvCache where
  R_ecef_to_eci : Mat3
  R_enu_to_ecef : Mat3
  R_enu_to_eci : Mat3
  lat_deg : ℝ
  lon_deg : ℝ
  h_m : ℝ
  r_ecef_m : Vec3

/-- A default-initialized cache (all entries zero). -/
def cache0 : EnvCache :=
  ⟨⟨Vec3.zero, Vec3.zero, Vec3.zero⟩, ⟨Vec3.zero, Vec3.zero, Vec3.zero⟩,
   ⟨Vec3.zero, Vec3.zero, Vec3.zero⟩, 0, 0, 0, Vec3.zero⟩

/-- Magnetic and gravity field at one spacetime point (`field_at_point`). -/
structure FieldPoint where
  b_eci : Vec3
  g_eci : Vec3

/-- Output bundle of `environment_model::calculate` (`environment_data`). -/
structure EnvData where
  magnetic_field_eci_t : Vec3
  magnetic_field_dot_eci_t_s : Vec3
  gravity_eci_m_s2 : Vec3

/-- Earth-rotation step `environment_model::update_ecef_transform`: writes
the ECEF-to-ECI rotation and the ECEF position into the cache. -/
def update_ecef_transform (c : EnvCache) (t_sec : ℝ) (r_eci_m : Vec3) : EnvCache :=
  let theta := earth_rotation_rate_rad_s * t_sec
  let ct := Real.cos theta
  let st := Real.sin theta
  { c with
    R_ecef_to_eci := ⟨⟨ct, -st, 0⟩, ⟨st, ct, 0⟩, ⟨0, 0, 1⟩⟩,
    r_ecef_m := ⟨ct * r_eci_m.x + st * r_eci_m.y, -st * r_eci_m.x + ct * r_eci_m.y, r_eci_m.z⟩ }

/-- Geodetic step `environment_model::update_geodetic_conversion`: writes the
geodetic coordinates and ENU basis of the cached ECEF position. -/
def update_geodetic_conversion (env : EnvModel) (c : EnvCache) : EnvCache :=
  let g := env.models.reverseGeo c.r_ecef_m
  { c with lat_deg := g.1, lon_deg := g.2.1, h_m := g.2.2.1, R_enu_to_ecef := g.2.2.2 }

/-- Field computation at one spacetime point
(`environment_model::compute_fields_at`, environment.cpp:158-184), threading
the mutable cache explicitly. -/
def compute_fields_at (env : EnvModel) (c : EnvCache) (t_sec : ℝ) (r_eci_m : Vec3) :
    EnvCache × FieldPoint :=
  let c1 := update_ecef_transform c t_sec r_eci_m
  let c2 := update_geodetic_conversion env c1
  let c3 := { c2 with R_enu_to_eci := c2.R_ecef_to_eci.mul c2.R_enu_to_ecef }
  let current_year := env.start_year_decimal + t_sec / seconds_per_year
  let braw := env.models.magneticAt current_year c3.lat_deg c3.lon_deg c3.h_m
  let b_enu : Vec3 := ⟨braw.x * nanotesla_to_tesla, braw.y * nanotesla_to_tesla, braw.z * nanotesla_to_tesla⟩
  let g_enu := env.models.gravityAt c3.lat_deg c3.lon_deg c3.h_m
  (c3, ⟨c3.R_enu_to_eci.mulVec b_enu, c3.R_enu_to_eci.mulVec g_enu⟩)

/-- Environment evaluation with material derivative
(`environment_model::calculate(t, r, v)`, environment.cpp:138-156): fields at
the current point, fields at the forward-propagated point, first-order
difference quotient. -/
def env_calculate (env : EnvModel) (c : EnvCache) (t_sec : ℝ) (r_eci_m v_eci_m_s : Vec3) :
    EnvCache × EnvData :=
  let step1 := compute_fields_at env c t_sec r_eci_m
  let t_next := t_sec + dt_gradient
  let r_next := r_eci_m.add (Vec3.smul dt_gradient v_eci_m_s)
  let step2 := compute_fields_at env step1.1 t_next r_next
  let db_dt := Vec3.smul (1.0 / dt_gradient) (step2.2.b_eci.sub step1.2.b_eci)
  (step2.1, ⟨step1.2.b_eci, db_dt, step1.2.g_eci⟩)

/-- The cache-independent value of one field evaluation, written out as a
single formula; used to state that the evaluation has no guard and no hidden
cache dependence. -/
def fields_formula (env : EnvModel) (t_sec : ℝ) (r_eci_m : Vec3) : FieldPoint :=
  let theta := earth_rotation_rate_rad_s * t_sec
  let ct := Real.cos theta
  let st := Real.sin theta
  let recef : Mat3 := ⟨⟨ct, -st, 0⟩, ⟨st, ct, 0⟩, ⟨0, 0, 1⟩⟩
  let r_ecef : Vec3 := ⟨ct * r_eci_m.x + st * r_eci_m.y, -st * r_eci_m.x + ct * r_eci_m.y, r_eci_m.z⟩
  let g := env.models.reverseGeo r_ecef
  let renu_eci := recef.mul g.2.2.2
  let current_year := env.start_year_decimal + t_sec / seconds_per_year
  let braw := env.models.magneticAt current_year g.1 g.2.1 g.2.2.1
  let b_enu : Vec3 := ⟨braw.x * nanotesla_to_tesla, braw.y * nanotesla_to_tesla, braw.z * nanotesla_to_tesla⟩
  ⟨renu_eci.mulVec b_enu, renu_eci.mulVec (env.models.gravityAt g.1 g.2.1 g.2.2.1)⟩

/-- Modelled from the claim wording of C6: a field evaluation that aborts
(produces no values) when the position norm is below 1e-6 m and otherwise
behaves like the code. -/
def spec_field_eval (env : EnvModel) (c : EnvCache) (t_sec : ℝ) (r_eci_m : Vec3) :
    Option FieldPoint :=
  if r_eci_m.norm < 1e-6 then none else some (compute_fields_at env c t_sec r_eci_m).2

/-! ## Compound state and stepper norm (src/unnamed/part_015, the full-state
variant of source/aos/core/state.hpp) -/

/-- Compound integration state (`aos::system_state`): position, velocity,
attitude quaternion, angular velocity and one irreversible magnetization per
rod. -/
structure SystemState where
  position : Vec3
  velocity : Vec3
  attitude : QuatR
  angular_velocity : Vec3
  rod_magnetizations : List ℝ

/-- Maximum absolute entry of a non-empty coefficient list (Eigen
`cwiseAbs().maxCoeff()` on a dynamic vector). -/
def listMaxAbs : List ℝ → ℝ
  | [] => 0
  | v :: vs => vs.foldl (fun acc m => max acc |m|) |v|

/-- Stepper infinity norm
(`boost::numeric::odeint::vector_space_norm_inf<aos::system_state>`,
part_015 lines 124-136): the maximum of the component maxima, with
`std::numeric_limits<double>::min()` substituted for the rod term when the
rod vector is empty. -/
def vector_space_norm_inf (s : SystemState) : ℝ :=
  max s.position.maxAbs
    (max s.velocity.maxAbs
      (max s.attitude.maxAbs
        (max s.angular_velocity.maxAbs
          (if s.rod_magnetizations.length > 0 then listMaxAbs s.rod_magnetizations else dbl_min))))

/-- Modelled from the claim wording of C8: the infinity norm as the maximum
absolute component over position, velocity, quaternion coefficients and
angular velocity, including the rod magnetizations exactly when there is at
least one rod. -/
def spec_norm_inf (s : SystemState) : ℝ :=
  max s.position.maxAbs
    (max s.velocity.maxAbs
      (max s.attitude.maxAbs
        (if s.rod_magnetizations.length > 0
         then max s.angular_velocity.maxAbs (listMaxAbs s.rod_magnetizations)
         else s.angular_velocity.maxAbs)))

/-! ## Dynamics functor (source/aos/simulation/dynamics.{hpp,cpp}) -/

/-- Spacecraft aggregate as stored after construction (`aos::spacecraft`):
inertia tensor, its precomputed inverse, the permanent-magnet dipole moment
vector, the rod list. -/
structure SpacecraftM where
  inertia_tensor : Mat3
  inertia_tensor_inverse : Mat3
  magnet_moment : Vec3
  rods : List RodM

/-- Field evaluation consumed by the dynamics functor
(`_environment->calculate(t_global, r_eci)` in dynamics.cpp:17): one field
computation at the current spacetime point, taken at a fresh cache; the cache
argument does not influence the result (every cache field the call reads is
first overwritten by the call itself). -/
def fieldsOut (env : EnvModel) (t_sec : ℝ) (r_eci_m : Vec3) : FieldPoint :=
  (compute_fields_at env cache0 t_sec r_eci_m).2

/-- Newtonian central acceleration plus the gravity disturbance
(`spacecraft_dynamics::compute_total_acceleration`). -/
def compute_total_acceleration (env : EnvModel) (r_eci gravity_disturbance : Vec3) : Vec3 :=
  let r_norm_sq := r_eci.normSq
  let r_norm := Real.sqrt r_norm_sq
  (Vec3.smul (-(env.models.massConstant / (r_norm_sq * r_norm))) r_eci).add gravity_disturbance

/-- The body-frame field rate computed by the dynamics functor
(`const vec3 b_dot_body = -omega_body.cross(b_body);`, dynamics.cpp:24). -/
def dynamics_b_dot_body (omega_body b_body : Vec3) : Vec3 :=
  Vec3.neg (omega_body.cross b_body)

/-- The body-frame magnetic field seen by the dynamics functor
(dynamics.cpp:22-23): the environment field rotated by the transpose of the
rotation matrix of the normalized attitude quaternion. -/
def dyn_b_body (env : EnvModel) (t_global : ℝ) (s : SystemState) : Vec3 :=
  (QuatR.toMat s.attitude.normalize).transpose.mulVec (fieldsOut env t_global s.position).b_eci

/-- Rod sweep of `spacecraft_dynamics::compute_rod_effects`: per-rod
derivative list and total rod torque, pairing the i-th rod with the i-th
state magnetization. -/
def compute_rod_effects (sc : SpacecraftM) (mags : List ℝ) (b_body b_dot_body : Vec3) :
    List ℝ × Vec3 :=
  ((sc.rods.zip mags).map fun rm =>
      magnetization_derivative_vec rm.1 rm.2 b_body b_dot_body,
   (sc.rods.zip mags).foldl
     (fun acc rm => acc.add ((rod_magnetic_moment rm.1 rm.2 b_body).cross b_body)) Vec3.zero)

/-- Gravity-gradient torque (`spacecraft_dynamics::compute_gravity_gradient_torque`). -/
def compute_gravity_gradient_torque (sc : SpacecraftM) (env : EnvModel) (r_eci : Vec3)
    (q_att : QuatR) : Vec3 :=
  let r_body := (QuatR.toMat q_att).transpose.mulVec r_eci
  let r_sq := r_body.normSq
  let r_val := Real.sqrt r_sq
  let coef := 3.0 * env.models.massConstant / (r_sq * r_sq * r_val)
  Vec3.smul coef (r_body.cross (sc.inertia_tensor.mulVec r_body))

/-- Torque sum (`spacecraft_dynamics::compute_net_torque`): permanent magnet,
rods, gyroscopic coupling, gravity gradient. -/
def compute_net_torque (sc : SpacecraftM) (env : EnvModel) (omega b_body rod_torque r_eci : Vec3)
    (q_att : QuatR) : Vec3 :=
  (((sc.magnet_moment.cross b_body).add rod_torque).sub
      (omega.cross (sc.inertia_tensor.mulVec omega))).add
    (compute_gravity_gradient_torque sc env r_eci q_att)

/-- Quaternion kinematics (`spacecraft_dynamics::compute_attitude_derivative`):
half the Hamilton product of the attitude with the pure angular-velocity
quaternion. -/
def compute_attitude_derivative (q : QuatR) (omega : Vec3) : QuatR :=
  (q.hmul ⟨0, omega.x, omega.y, omega.z⟩).smul 0.5

/-- The dynamics functor (`spacecraft_dynamics::operator()`,
dynamics.cpp:11-30): assembles the state derivative at stepper-local time
`t` with global offset `offset`. -/
def spacecraft_dynamics (sc : SpacecraftM) (env : EnvModel) (offset : ℝ) (s : SystemState)
    (t : ℝ) : SystemState :=
  let t_global := offset + t
  let q_att := s.attitude.normalize
  let env_fields := fieldsOut env t_global s.position
  let b_body := (QuatR.toMat q_att).transpose.mulVec env_fields.b_eci
  let b_dot_body := dynamics_b_dot_body s.angular_velocity b_body
  let rod_out := compute_rod_effects sc s.rod_magnetizations b_body b_dot_body
  let net_torque := compute_net_torque sc env s.angular_velocity b_body rod_out.2 s.position q_att
  { position := s.velocity,
    velocity := compute_total_acceleration env s.position env_fields.g_eci,
    attitude := compute_attitude_derivative q_att s.angular_velocity,
    angular_velocity := sc.inertia_tensor_inverse.mulVec net_torque,
    rod_magnetizations := rod_out.1 }

/-- Modelled from the claim wording of C2: the body-frame field rate the spec
prescribes for the rods, R_eci_to_body * Bdot_eci - omega x B_body, with
Bdot_eci the material derivative returned by `environment_model::calculate`
for the state's (t, r, v). -/
def spec_body_field_rate (env : EnvModel) (t_global : ℝ) (s : SystemState) : Vec3 :=
  let q_att := s.attitude.normalize
  let db_eci := (env_calculate env cache0 t_global s.position s.velocity).2.magnetic_field_dot_eci_t_s
  (((QuatR.toMat q_att).transpose.mulVec db_eci).sub
    (s.angular_velocity.cross (dyn_b_body env t_global s)))

/-! ## Checkpointed simulation loop (source/aos/simulation/simulation.cpp) -/

/-- Checkpoint restoration (simulation.cpp:73-82): re-normalize the attitude
quaternion, clamp every rod magnetization into [-ms, +ms]. -/
def checkpoint_restore (ms : ℝ) (s : SystemState) : SystemState :=
  { s with
    attitude := s.attitude.normalize,
    rod_magnetizations := s.rod_magnetizations.map fun m => clampD m (-ms) ms }

/-- The checkpointed integration loop of `run_simulation`
(simulation.cpp:62-88), with the adaptive integrator
(`integrate_adaptive(stepper, dynamics, state, 0, section_period, dt)`)
abstracted as a function `integ` of the global-time offset, the slice length
and the incoming state.  The function returns the list of (t_global, state)
pairs handed to the observer at checkpoint boundaries.  The fuel argument
bounds the number of loop iterations; every iteration mirrors the C++ loop
body: slice, restore invariants, advance time, emit. -/
def checkpoint_loop (integ : ℝ → ℝ → SystemState → SystemState) (ms interval : ℝ) :
    ℕ → ℝ → ℝ → SystemState → List (ℝ × SystemState)
  | 0, _, _, _ => []
  | fuel + 1, global_time_accum, remaining_time, s =>
    if remaining_time > 1.0 then
      let section_period := min interval remaining_time
      let integrated := integ global_time_accum section_period s
      let restored := checkpoint_restore ms integrated
      let global_next := global_time_accum + section_period
      (global_next, restored) ::
        checkpoint_loop integ ms interval fuel global_next (remaining_time - section_period) restored
    else []

/-! ## Claim-side definitions and concrete instances -/

/-- Irreversible susceptibility chi_irr = (M_an - clamp(M_irr)) /
(k delta - alpha (M_an - clamp(M_irr))): the standard-branch value of
`magnetization_derivative` (hysteresis_rod.cpp:141). -/
def chi_irr (p : JAParams) (m_irr_am h_along_rod dh_dt : ℝ) : ℝ :=
  ja_numerator p m_irr_am h_along_rod / ja_denominator p m_irr_am h_along_rod dh_dt

/-- Modelled from the spec, section 4.4 step 5: the anhysteretic slope
dM_an/dH_eff, Taylor branch (M_s/a)(1/3 - x^2/15) near zero, and
(M_s/a)(1/x^2 - csch^2 x) otherwise. -/
def spec_dman_dheff (p : JAParams) (h_eff_am : ℝ) : ℝ :=
  let lx := h_eff_am / p.a
  if |lx| < epsilon_langevin then (p.ms / p.a) * (1.0 / 3.0 - lx * lx / 15.0)
  else (p.ms / p.a) * (1.0 / (lx * lx) - (1.0 / Real.sinh lx) ^ 2)

/-- Modelled from the claim wording of C3: the total-susceptibility rate
chi * dH/dt with chi = (1 - c) chi_irr + c dM_an/dH_eff. -/
def spec_total_chi_rate (p : JAParams) (m_irr_am h_along_rod dh_dt : ℝ) : ℝ :=
  ((1.0 - p.c) * chi_irr p m_irr_am h_along_rod dh_dt +
      p.c * spec_dman_dheff p (calculate_h_eff p h_along_rod (ja_m_clamped p m_irr_am))) * dh_dt

/-- Concrete property bundle for claim C1: a 12 kg spacecraft (mass field in
grams) with a 2 m cube body. -/
def c1_props : SpacecraftProps :=
  ⟨12000.0, ⟨2.0, 2.0, 2.0⟩, ⟨0.0, 0.0, 1.0⟩, 1.45, 0.05, 0.01, 1.0e-6, [], JAParams.hymu80⟩

/-- Concrete Jiles-Atherton parameters for claims C3: M_s = 6, a = 1, k = 4,
c = 1/2, alpha = 0. -/
def c3_params : JAParams := ⟨6.0, 1.0, 4.0, 0.5, 0.0⟩

/-- Concrete Keplerian element set for claim C4: eccentricity 2/sqrt(3) and
mean anomaly pi/6 make the first Newton-Raphson denominator
1 - e cos(E) exactly zero, so the iteration never moves and never meets the
tolerance. -/
def c4_elements : KeplerElements := ⟨7.0e6, 2 / Real.sqrt 3, 0, 0, 0, Real.pi / 6⟩

/-- Concrete Keplerian element set used to witness claim C5. -/
def c5_elements : KeplerElements := ⟨6.818137e6, 0.0, 1.396263, 0.0, 0.0, 0.0⟩

/-- Environment collaborators for the C2 counterexample: trivial geodesy and
a geomagnetic model that returns the decimal year as its vertical component,
so the material derivative along any trajectory is nonzero. -/
def c2_models : EnvModels :=
  ⟨fun _ => (0.0, 0.0, 0.0, Mat3.idm), fun year _ _ _ => ⟨0.0, 0.0, year⟩,
   fun _ _ _ => Vec3.zero, earth_mu_m3_s2⟩

/-- Environment instance for the C2 counterexample, epoch year zero. -/
def c2_env : EnvModel := ⟨0.0, c2_models⟩

/-- State for the C2 counterexample: orbital radius on the x axis, zero
velocity, identity attitude, zero angular velocity, one rod state. -/
def c2_state : SystemState := ⟨⟨7.0e6, 0.0, 0.0⟩, Vec3.zero, QuatR.idq, Vec3.zero, [0.0]⟩

/-- Environment collaborators for the C6 counterexample: trivial geodesy, a
constant geomagnetic field of 1 nT east, zero gravity. -/
def c6_models : EnvModels :=
  ⟨fun _ => (0.0, 0.0, 0.0, Mat3.idm), fun _ _ _ _ => ⟨1.0, 0.0, 0.0⟩,
   fun _ _ _ => Vec3.zero, earth_mu_m3_s2⟩

/-- Environment instance for the C6 counterexample. -/
def c6_env : EnvModel := ⟨2026.0, c6_models⟩

/-- The all-zero compound state with zero rods, for claim C8. -/
def c8_zero_state : SystemState := ⟨Vec3.zero, Vec3.zero, ⟨0.0, 0.0, 0.0, 0.0⟩, Vec3.zero, []⟩

/-- A compound state with one rod entry, used to witness claim C8. -/
def c8_one_rod_state : SystemState := ⟨Vec3.zero, Vec3.zero, ⟨1.0, 0.0, 0.0, 0.0⟩, Vec3.zero, [5.0]⟩

/-- A base state with unit attitude quaternion, used to witness claim C7. -/
def c7_base : SystemState := ⟨Vec3.zero, Vec3.zero, QuatR.idq, Vec3.zero, [2.0]⟩

/-- A constant mock integrator, used to witness claim C7: every slice returns
`c7_base`. -/
def c7_integ : ℝ → ℝ → SystemState → SystemState := fun _ _ _ => c7_base

/-! ## Helper lemmas -/

/-- The magnitude of `copysign` is the magnitude of its first argument. -/
theorem abs_copysignR (mag sgn : ℝ) : |copysignR mag sgn| = |mag| := by
  unfold copysignR
  split
  · rw [abs_neg, abs_abs]
  · rw [abs_abs]

/-- The clamp of `std::clamp(m, -ms, ms)` lands in `[-ms, ms]` when `ms` is
non-negative. -/
theorem abs_clampD_le (m ms : ℝ) (hms : 0 ≤ ms) : |clampD m (-ms) ms| ≤ ms := by
  unfold clampD
  split_ifs with h1 h2
  · rw [abs_neg, abs_of_nonneg hms]
  · rw [abs_of_nonneg hms]
  · exact abs_le.mpr ⟨by linarith, by linarith⟩

/-- The susceptibility cap is positive for positive saturation. -/
theorem ja_max_chi_pos (p : JAParams) (hms : 0 < p.ms) : 0 < ja_max_chi p := by
  unfold ja_max_chi
  apply div_pos hms
  apply lt_max_of_lt_right
  norm_num [min_k_value]

/-! ## Claim C1 -/

/-- C1: the claim says the constructor converts the gram-valued mass field to
kilograms before applying the box-inertia formula, so a 12 kg (12000 g)
spacecraft with a 2 m cube body should store I_x = 8 kg m^2.  The code
(`spacecraft.hpp:30`) passes `properties.mass_g` to `get_inertia_tensor`
unconverted: the stored I_x is 8000, a factor 1000 off the claimed value,
while the static formula applied to a kilogram mass does give 8. -/
theorem c1_inertia_gram_bug :
    (spacecraft_stored_inertia c1_props).r0.x = 8000 ∧
    spec_inertia_xx c1_props = 8 ∧
    (get_inertia_tensor 12 2 2 2).r0.x = 8 ∧
    (spacecraft_stored_inertia c1_props).r0.x ≠ spec_inertia_xx c1_props := by
  refine ⟨?_, ?_, ?_, ?_⟩ <;>
    norm_num [spacecraft_stored_inertia, get_inertia_tensor, spec_inertia_xx, c1_props]

/-! ## Claim C9 -/

/-- C9: for a fixed input (t, r) the field computation
`environment_model::compute_fields_at` returns the same (B_eci, g_eci) pair
whatever the prior contents of the interior-mutable computation cache: every
cache field the evaluation reads is overwritten by the same call before being
read, so earlier evaluations cannot change observable outputs. -/
theorem c9_cache_never_changes_outputs (env : EnvModel) (c c' : EnvCache) (t : ℝ) (r : Vec3) :
    (compute_fields_at env c t r).2 = (compute_fields_at env c' t r).2 := rfl

/-! ## Claim C8 -/

/-- C8 counterexample: on the all-zero state with zero rods the stepper norm
is not the maximum absolute component (which is 0): the rod term is not
excluded but replaced by the sentinel `std::numeric_limits<double>::min()`,
so the norm evaluates to 2^(-1022). -/
theorem c8_counterexample :
    vector_space_norm_inf c8_zero_state = dbl_min ∧
    spec_norm_inf c8_zero_state = 0 ∧
    vector_space_norm_inf c8_zero_state ≠ spec_norm_inf c8_zero_state := by
  have hpos : (0 : ℝ) < dbl_min := by
    rw [dbl_min]
    positivity
  have hz3 : Vec3.maxAbs Vec3.zero = 0 := by norm_num [Vec3.maxAbs, Vec3.zero]
  have hz4 : QuatR.maxAbs ⟨0.0, 0.0, 0.0, 0.0⟩ = 0 := by norm_num [QuatR.maxAbs]
  have h1 : vector_space_norm_inf c8_zero_state = dbl_min := by
    simp [vector_space_norm_inf, c8_zero_state, hz3, hz4, max_eq_right hpos.le]
  have h2 : spec_norm_inf c8_zero_state = 0 := by
    simp [spec_norm_inf, c8_zero_state, hz3, hz4]
  exact ⟨h1, h2, by rw [h1, h2]; exact hpos.ne'⟩

/-- C8 as amended: with at least one rod the stepper norm is exactly the
maximum absolute component over position, velocity, quaternion coefficients,
angular velocity and rod magnetizations; with zero rods the rod term is
replaced by the sentinel DBL_MIN = 2^(-1022) (not excluded), so the norm is
the maximum of the component maximum and that sentinel; the computation is
total for empty rod vectors. -/
theorem c8_norm_amended (s : SystemState) :
    (s.rod_magnetizations.length > 0 → vector_space_norm_inf s = spec_norm_inf s) ∧
    (s.rod_magnetizations.length = 0 →
      vector_space_norm_inf s = max (spec_norm_inf s) dbl_min) := by
  constructor
  · intro h
    simp [vector_space_norm_inf, spec_norm_inf, if_pos h]
  · intro h
    have h0 : ¬ s.rod_magnetizations.length > 0 := by omega
    simp only [vector_space_norm_inf, spec_norm_inf, if_neg h0]
    simp [max_assoc]

/-- Witness for the amended C8 at a state with one rod. -/
theorem c8_witness :
    c8_one_rod_state.rod_magnetizations.length > 0 ∧
    vector_space_norm_inf c8_one_rod_state = spec_norm_inf c8_one_rod_state :=
  ⟨by simp [c8_one_rod_state], (c8_norm_amended c8_one_rod_state).1 (by simp [c8_one_rod_state])⟩

/-! ## Claim C10 -/

/-- C10: in every branch of `hysteresis_rod::magnetization_derivative` the
returned rate is bounded by (M_s / max(k, k_floor)) * |dH/dt|: the zero
branches trivially, the singularity branch and the cap branch by the
magnitude of `copysign`, and the standard branch because the cap test
`|dmirr_dh| > max_chi` failed. -/
theorem c10_rate_bound (p : JAParams) (m_irr_am h_along_rod dh_dt : ℝ) (hms : 0 < p.ms) :
    |magnetization_derivative p m_irr_am h_along_rod dh_dt| ≤ ja_max_chi p * |dh_dt| := by
  have hchi := ja_max_chi_pos p hms
  have hzero : (0 : ℝ) ≤ ja_max_chi p * |dh_dt| := mul_nonneg hchi.le (abs_nonneg dh_dt)
  have hsel : |ja_dmirr_dh p m_irr_am h_along_rod dh_dt| ≤ ja_max_chi p := by
    simp only [ja_dmirr_dh]
    split_ifs with h1 h2 h3
    · simpa using hchi.le
    · rw [abs_copysignR]
      exact (abs_of_pos hchi).le
    · rw [abs_copysignR]
      exact (abs_of_pos hchi).le
    · exact le_of_not_lt (by simpa using h3)
  simp only [magnetization_derivative]
  split_ifs <;> simp only [abs_zero, abs_mul] <;> try exact hzero
  exact mul_le_mul_of_nonneg_right hsel (abs_nonneg dh_dt)

/-! ## Claim C3 -/

/-- C3 counterexample: at M_s = 6, a = 1, k = 4, c = 1/2, alpha = 0 and input
(M_irr, H, dH/dt) = (-1, 0, 1), which passes the saturation and static-field
filters, the code returns chi_irr * dH/dt = 1/4
(`hysteresis_rod.cpp:141,149`), while the claimed total-susceptibility rate
((1-c) chi_irr + c dM_an/dH_eff) * dH/dt equals 9/8: the reversible term
c * dM_an/dH_eff is absent from the code. -/
theorem c3_counterexample :
    magnetization_derivative c3_params (-1) 0 1 = 1 / 4 ∧
    spec_total_chi_rate c3_params (-1) 0 1 = 9 / 8 ∧
    magnetization_derivative c3_params (-1) 0 1 ≠ spec_total_chi_rate c3_params (-1) 0 1 := by
  have hclamp : ja_m_clamped c3_params (-1) = -1 := by
    norm_num [ja_m_clamped, clampD, c3_params]
  have heff : calculate_h_eff c3_params 0 (-1) = 0 := by
    norm_num [calculate_h_eff, c3_params]
  have han : calculate_anhysteretic c3_params 0 = 0 := by
    norm_num [calculate_anhysteretic, c3_params, epsilon_langevin]
  have hnum : ja_numerator c3_params (-1) 0 = 1 := by
    rw [ja_numerator, ja_m_an, hclamp, heff, han]
    norm_num
  have hden : ja_denominator c3_params (-1) 0 1 = 4 := by
    rw [ja_denominator, hnum]
    norm_num [ja_delta, c3_params]
  have hmax : ja_max_chi c3_params = 3 / 2 := by
    rw [ja_max_chi]
    norm_num [c3_params, min_k_value, max_eq_left]
  have hsel : ja_dmirr_dh c3_params (-1) 0 1 = 1 / 4 := by
    simp only [ja_dmirr_dh, hnum, hden, hmax]
    rw [if_neg (by rw [abs_of_nonneg (by norm_num : (0:ℝ) ≤ 4)]; norm_num [epsilon_denominator]),
      if_neg (by rw [abs_of_nonneg (by norm_num : (0:ℝ) ≤ 1 / 4)]; norm_num)]
  have hcode : magnetization_derivative c3_params (-1) 0 1 = 1 / 4 := by
    simp only [magnetization_derivative, hsel]
    norm_num [c3_params, epsilon_dh_dt, tolerance_causality]
  have hdman : spec_dman_dheff c3_params 0 = 2 := by
    norm_num [spec_dman_dheff, c3_params, epsilon_langevin]
  have hspec : spec_total_chi_rate c3_params (-1) 0 1 = 9 / 8 := by
    rw [spec_total_chi_rate, chi_irr, hnum, hden, hclamp, heff, hdman]
    norm_num [c3_params]
  exact ⟨hcode, hspec, by rw [hcode, hspec]; norm_num⟩

/-- C3 as amended: for every rod input that passes the static-field filter
and the saturation filter, and at which neither the denominator singularity
handling (|denominator| < 1e-9), nor the magnitude cap
(|chi_irr| > M_s/max(k, k_floor)), nor the causality clamp fires,
`magnetization_derivative` returns chi_irr * dH/dt with
chi_irr = (M_an - clamp(M_irr)) / (k delta - alpha (M_an - clamp(M_irr))).
The reversible term c * dM_an/dH_eff of the claimed total susceptibility is
not part of the code's rate. -/
theorem c3_rate_is_chi_irr_times_dh (p : JAParams) (m_irr_am h_along_rod dh_dt : ℝ)
    (hsat1 : ¬(m_irr_am ≥ p.ms ∧ dh_dt > 0)) (hsat2 : ¬(m_irr_am ≤ -p.ms ∧ dh_dt < 0))
    (hstat : ¬(|dh_dt| < epsilon_dh_dt))
    (hden : ¬(|ja_denominator p m_irr_am h_along_rod dh_dt| < epsilon_denominator))
    (hcap : ¬(|chi_irr p m_irr_am h_along_rod dh_dt| > ja_max_chi p))
    (hc1 : ¬(dh_dt > 0 ∧ chi_irr p m_irr_am h_along_rod dh_dt * dh_dt < -tolerance_causality))
    (hc2 : ¬(dh_dt < 0 ∧ chi_irr p m_irr_am h_along_rod dh_dt * dh_dt > tolerance_causality)) :
    magnetization_derivative p m_irr_am h_along_rod dh_dt =
      chi_irr p m_irr_am h_along_rod dh_dt * dh_dt := by
  have hsel : ja_dmirr_dh p m_irr_am h_along_rod dh_dt =
      chi_irr p m_irr_am h_along_rod dh_dt := by
    simp only [ja_dmirr_dh, chi_irr] at *
    rw [if_neg hden, if_neg hcap]
  simp only [magnetization_derivative, hsel]
  rw [if_neg hsat1, if_neg hsat2, if_neg hstat, if_neg hc1, if_neg hc2]

/-- Witness for the amended C3 at the concrete input of the counterexample:
all side conditions hold and the returned rate is chi_irr * dH/dt. -/
theorem c3_witness :
    magnetization_derivative c3_params (-1) 0 1 = chi_irr c3_params (-1) 0 1 := by
  have hclamp : ja_m_clamped c3_params (-1) = -1 := by
    norm_num [ja_m_clamped, clampD, c3_params]
  have heff : calculate_h_eff c3_params 0 (-1) = 0 := by
    norm_num [calculate_h_eff, c3_params]
  have han : calculate_anhysteretic c3_params 0 = 0 := by
    norm_num [calculate_anhysteretic, c3_params, epsilon_langevin]
  have hnum : ja_numerator c3_params (-1) 0 = 1 := by
    rw [ja_numerator, ja_m_an, hclamp, heff, han]
    norm_num
  have hden : ja_denominator c3_params (-1) 0 1 = 4 := by
    rw [ja_denominator, hnum]
    norm_num [ja_delta, c3_params]
  have hchi : chi_irr c3_params (-1) 0 1 = 1 / 4 := by
    rw [chi_irr, hnum, hden]
  have hmax : ja_max_chi c3_params = 3 / 2 := by
    rw [ja_max_chi]
    norm_num [c3_params, min_k_value, max_eq_left]
  have := c3_rate_is_chi_irr_times_dh c3_params (-1) 0 1
    (by norm_num [c3_params]) (by norm_num [c3_params])
    (by rw [abs_of_nonneg (by norm_num : (0:ℝ) ≤ 1)]; norm_num [epsilon_dh_dt])
    (by rw [hden, abs_of_nonneg (by norm_num : (0:ℝ) ≤ 4)]; norm_num [epsilon_denominator])
    (by rw [hchi, hmax, abs_of_nonneg (by norm_num : (0:ℝ) ≤ 1 / 4)]; norm_num)
    (by rw [hchi]; norm_num [tolerance_causality])
    (by rw [hchi]; norm_num)
  simpa using this

/-! ## Claim C2 -/

/-- C2 as amended: the body-frame field rate the dynamics functor supplies to
every rod's magnetization derivative is the transport term -omega x B_body
alone (dynamics.cpp:24-25); the environment's material derivative Bdot_eci is
not part of it. -/
theorem c2_rod_rate_is_transport_term_only (sc : SpacecraftM) (env : EnvModel)
    (offset t : ℝ) (s : SystemState) :
    (spacecraft_dynamics sc env offset s t).rod_magnetizations =
      (sc.rods.zip s.rod_magnetizations).map fun rm =>
        magnetization_derivative_vec rm.1 rm.2 (dyn_b_body env (offset + t) s)
          (Vec3.neg (s.angular_velocity.cross (dyn_b_body env (offset + t) s))) := rfl


/-- C2 counterexample: with the mock harmonic models of `c2_env` (whose
vertical field component equals the decimal year, so the environment's
material derivative is the nonzero vector (0, 0, 1e-9/seconds_per_year)),
at the state `c2_state` (identity attitude, zero angular velocity) and t = 0
the dynamics functor supplies the rate -omega x B_body = 0 to the rods,
while the claimed value R_eci_to_body * Bdot_eci - omega x B_body is
nonzero. -/
theorem c2_counterexample :
    dynamics_b_dot_body c2_state.angular_velocity (dyn_b_body c2_env 0 c2_state) = Vec3.zero ∧
    spec_body_field_rate c2_env 0 c2_state = ⟨0, 0, 1e-9 / seconds_per_year⟩ ∧
    (Vec3.zero : Vec3) ≠ (⟨0, 0, 1e-9 / seconds_per_year⟩ : Vec3) := by
  have hspy : (0 : ℝ) < seconds_per_year := by norm_num [seconds_per_year]
  have hq : QuatR.normalize ⟨1, 0, 0, 0⟩ = (⟨1, 0, 0, 0⟩ : QuatR) := by
    norm_num [QuatR.normalize, QuatR.norm, QuatR.smul, Real.sqrt_one]
  have hb0 : dyn_b_body c2_env 0 c2_state = Vec3.zero := by
    simp [dyn_b_body, fieldsOut, compute_fields_at, update_ecef_transform,
      update_geodetic_conversion, c2_env, c2_models, c2_state, cache0, hq,
      Mat3.mul, Mat3.mulVec, Mat3.transpose, Mat3.col0, Mat3.col1, Mat3.col2,
      Mat3.idm, Vec3.dot, Vec3.zero, QuatR.toMat, QuatR.idq, nanotesla_to_tesla]
    exact Or.inl (by norm_num)
  refine ⟨?_, ?_, ?_⟩
  · rw [hb0]
    simp [dynamics_b_dot_body, Vec3.cross, Vec3.neg, c2_state, Vec3.zero]
  · rw [spec_body_field_rate]
    simp only [hb0]
    simp [env_calculate, compute_fields_at, update_ecef_transform,
      update_geodetic_conversion, c2_env, c2_models, c2_state, cache0, hq,
      Mat3.mul, Mat3.mulVec, Mat3.transpose, Mat3.col0, Mat3.col1, Mat3.col2,
      Mat3.idm, Vec3.dot, Vec3.zero, Vec3.add, Vec3.sub, Vec3.smul, Vec3.cross,
      QuatR.toMat, QuatR.idq, nanotesla_to_tesla, dt_gradient]
    norm_num
    ring
  · intro h
    have := congrArg Vec3.z h
    simp [Vec3.zero] at this
    have : (1e-9 : ℝ) / seconds_per_year ≠ 0 := by positivity
    simp_all

/-! ## Claim C6 -/

/-- C6 counterexample: at the origin (position norm 0 < 1e-6 m) the claimed
behaviour is an abort with no field values (`spec_field_eval` returns none),
but `environment_model::compute_fields_at` has no position guard and returns
field values: with the mock models of `c6_env` it produces the 1 nT east
field rotated to ECI and a zero gravity vector. -/
theorem c6_counterexample :
    spec_field_eval c6_env cache0 0 Vec3.zero = none ∧
    (compute_fields_at c6_env cache0 0 Vec3.zero).2 =
      ⟨⟨1e-9, 0, 0⟩, ⟨0, 0, 0⟩⟩ := by
  have hn : (Vec3.zero : Vec3).norm = 0 := by
    simp [Vec3.norm, Vec3.normSq, Vec3.zero]
  constructor
  · rw [spec_field_eval, if_pos (by rw [hn]; norm_num)]
  · simp [compute_fields_at, update_ecef_transform, update_geodetic_conversion,
      c6_env, c6_models, cache0, Mat3.mul, Mat3.mulVec, Mat3.col0, Mat3.col1,
      Mat3.col2, Mat3.idm, Vec3.dot, Vec3.zero, nanotesla_to_tesla]
    norm_num

/-- C6 as amended: the ‖r‖ < 1e-6 singularity abort lives in the standalone
two-body derivative `orbit_derivatives` (part_000), which produces no
derivative there; the environment model's field evaluation
`compute_fields_at` carries no position guard and produces field values for
every position, including those below the threshold, following the same
formula as everywhere else.  (The year-range check is performed once at
construction and only logs a warning; evaluations never check the year and
always proceed, which the unguarded formula also records.) -/
theorem c6_singularity_guard_located (position velocity : Vec3) (env : EnvModel)
    (c : EnvCache) (t_sec : ℝ) (hr : position.norm < 1e-6) :
    orbit_derivatives position velocity = none ∧
    (compute_fields_at env c t_sec position).2 = fields_formula env t_sec position := by
  constructor
  · rw [orbit_derivatives, if_pos hr]
  · rfl

/-- Witness for the amended C6 at the origin. -/
theorem c6_witness :
    Vec3.zero.norm < 1e-6 ∧
    (orbit_derivatives Vec3.zero ⟨1, 2, 3⟩ = none ∧
      (compute_fields_at c6_env cache0 2 Vec3.zero).2 = fields_formula c6_env 2 Vec3.zero) := by
  have hn : (Vec3.zero : Vec3).norm < 1e-6 := by
    simp [Vec3.norm, Vec3.normSq, Vec3.zero]
    norm_num
  exact ⟨hn, c6_singularity_guard_located Vec3.zero ⟨1, 2, 3⟩ c6_env cache0 2 hn⟩

/-! ## Claim C7 -/

/-- Scaling multiplies the quaternion norm by the absolute scale. -/
theorem quat_norm_smul (c : ℝ) (q : QuatR) : (q.smul c).norm = |c| * q.norm := by
  unfold QuatR.norm QuatR.smul
  rw [← Real.sqrt_sq_eq_abs, ← Real.sqrt_mul (sq_nonneg c)]
  ring_nf

/-- Eigen `normalize()` yields a unit quaternion whenever the norm is
nonzero. -/
theorem quat_norm_normalize (q : QuatR) (hq : q.norm ≠ 0) : q.normalize.norm = 1 := by
  have hnn : 0 ≤ q.norm := Real.sqrt_nonneg _
  rw [QuatR.normalize, quat_norm_smul, abs_of_nonneg (by positivity), one_div,
    inv_mul_cancel₀ hq]

/-- C7: in checkpointed mode every state handed to the observer at a
checkpoint boundary is the restored image of the integrated slice: its
attitude quaternion has norm exactly 1 (hence within 1e-12 of 1) and every
rod magnetization lies in [-M_s, +M_s]; the restoration happens after the
slice and before the emission (each emitted state is
`checkpoint_restore ms` of an integrator output).  The hypotheses: positive
saturation magnetization (enforced by the rod constructor) and integrator
outputs whose quaternion is not the zero 4-vector (Eigen `normalize`
divides by the norm). -/
theorem c7_checkpoint_invariants (integ : ℝ → ℝ → SystemState → SystemState)
    (ms interval : ℝ) (fuel : ℕ) (global_t remaining : ℝ) (s : SystemState)
    (hckpt : 1 ≤ interval) (hms : 0 < ms)
    (hq : ∀ a b st, ((integ a b st).attitude).norm ≠ 0) :
    ∀ t_obs s_obs, (t_obs, s_obs) ∈ checkpoint_loop integ ms interval fuel global_t remaining s →
      |s_obs.attitude.norm - 1| ≤ 1e-12 ∧
      (∀ m ∈ s_obs.rod_magnetizations, |m| ≤ ms) ∧
      ∃ a b pre, s_obs = checkpoint_restore ms (integ a b pre) := by
  induction fuel generalizing global_t remaining s with
  | zero => intro t_obs s_obs h; simp [checkpoint_loop] at h
  | succ n ih =>
    intro t_obs s_obs h
    rw [checkpoint_loop] at h
    by_cases hrem : remaining > 1.0
    · rw [if_pos hrem, List.mem_cons] at h
      rcases h with h | h
      · have hs : s_obs = checkpoint_restore ms (integ global_t (min interval remaining) s) :=
          congrArg Prod.snd h
        refine ⟨?_, ?_, global_t, min interval remaining, s, hs⟩
        · rw [hs]
          have := quat_norm_normalize _ (hq global_t (min interval remaining) s)
          simp only [checkpoint_restore] at this ⊢
          rw [this]
          norm_num
        · intro m hm
          rw [hs] at hm
          simp only [checkpoint_restore, List.mem_map] at hm
          obtain ⟨m0, _, hm0⟩ := hm
          rw [← hm0]
          exact abs_clampD_le m0 ms hms.le
      · exact ih _ _ _ _ _ h
    · rw [if_neg hrem] at h
      simp at h

/-- Witness for C7: one checkpoint iteration with the constant mock
integrator `c7_integ`, checkpoint interval 1 s, ms = 1; the emitted head
observation satisfies the invariants. -/
theorem c7_witness :
    (1 : ℝ) ≤ 1 ∧ (0 : ℝ) < 1 ∧
      (|(checkpoint_restore 1 (c7_integ 0 (min 1 2) c7_base)).attitude.norm - 1| ≤ 1e-12 ∧
        (∀ m ∈ (checkpoint_restore 1 (c7_integ 0 (min 1 2) c7_base)).rod_magnetizations,
          |m| ≤ 1) ∧
        ∃ a b pre,
          checkpoint_restore 1 (c7_integ 0 (min 1 2) c7_base) =
            checkpoint_restore 1 (c7_integ a b pre)) := by
  have hq : ∀ a b st, ((c7_integ a b st).attitude).norm ≠ 0 := by
    intro a b st
    simp [c7_integ, c7_base, QuatR.idq, QuatR.norm]
  refine ⟨le_refl 1, by norm_num, ?_⟩
  exact c7_checkpoint_invariants c7_integ 1 1 1 0 2 c7_base (le_refl 1) (by norm_num) hq
    (0 + min 1 2) (checkpoint_restore 1 (c7_integ 0 (min 1 2) c7_base))
    (by rw [checkpoint_loop, if_pos (by norm_num : (2 : ℝ) > 1.0)]
        exact List.mem_cons_self _ _)

/-! ## Claim C4 -/

/-- At eccentricity 2/sqrt(3) and mean anomaly pi/6, the Newton-Raphson
denominator 1 - e cos(E) is exactly zero at the start value E = M0, the
residual stays at -1/sqrt(3) (far above the 1e-9 tolerance), and the iterate
never moves: the loop spends its whole budget without converging. -/
theorem kepler_stall (n : ℕ) :
    keplerLoop (2 / Real.sqrt 3) (Real.pi / 6) n (Real.pi / 6) = (Real.pi / 6, false) := by
  have h3 : (0 : ℝ) < Real.sqrt 3 := Real.sqrt_pos.mpr (by norm_num)
  induction n with
  | zero => rfl
  | succ m ih =>
    have hd : Real.pi / 6 - 2 / Real.sqrt 3 * Real.sin (Real.pi / 6) - Real.pi / 6 =
        -(1 / Real.sqrt 3) := by
      rw [Real.sin_pi_div_six]
      ring
    have hcond : ¬(|Real.pi / 6 - 2 / Real.sqrt 3 * Real.sin (Real.pi / 6) - Real.pi / 6| <
        kepler_epsilon) := by
      rw [hd, abs_neg, abs_of_nonneg (by positivity), kepler_epsilon, not_lt]
      have h2 : Real.sqrt 3 ≤ 2 := by
        rw [show (2 : ℝ) = Real.sqrt (2 ^ 2) by rw [Real.sqrt_sq]; norm_num]
        exact Real.sqrt_le_sqrt (by norm_num)
      have hge : (1 : ℝ) / 2 ≤ 1 / Real.sqrt 3 := by
        apply one_div_le_one_div_of_le h3 h2
      linarith
    have hden : 1.0 - 2 / Real.sqrt 3 * Real.cos (Real.pi / 6) = 0 := by
      rw [Real.cos_pi_div_six]
      field_simp
      norm_num
    simp only [keplerLoop]
    rw [if_neg hcond, hden, div_zero, sub_zero, ih]

/-- C4: the claim's abort on an exhausted iteration budget does not exist in
the code: `orbital_converter::to_cartesian` has no failure path.  At
`c4_elements` the Newton-Raphson loop provably reaches the 100-iteration cap
without meeting the 1e-9 tolerance (converged flag false), and the function
still returns the Cartesian state computed from the unconverged eccentric
anomaly pi/6. -/
theorem c4_cap_reached_still_returns_state :
    (solveKepler c4_elements.eccentricity c4_elements.mean_anomaly_rad).2 = false ∧
    to_cartesian c4_elements = cartesianFromAnomaly c4_elements (Real.pi / 6) := by
  have h1 : solveKepler c4_elements.eccentricity c4_elements.mean_anomaly_rad =
      (Real.pi / 6, false) := by
    rw [solveKepler]
    exact kepler_stall kepler_max_iter
  exact ⟨by rw [h1], by rw [to_cartesian, h1]⟩

/-! ## Claim C5 -/

/-- Rotation about z preserves the dot product. -/
theorem rotZ_dot (theta : ℝ) (u v : Vec3) :
    ((rotZ theta).mulVec u).dot ((rotZ theta).mulVec v) = u.dot v := by
  simp only [rotZ, Mat3.mulVec, Vec3.dot]
  linear_combination (u.x * v.x + u.y * v.y) * Real.sin_sq_add_cos_sq theta

/-- Rotation about x preserves the dot product. -/
theorem rotX_dot (theta : ℝ) (u v : Vec3) :
    ((rotX theta).mulVec u).dot ((rotX theta).mulVec v) = u.dot v := by
  simp only [rotX, Mat3.mulVec, Vec3.dot]
  linear_combination (u.y * v.y + u.z * v.z) * Real.sin_sq_add_cos_sq theta

/-- Matrix products act on vectors by composition. -/
theorem mulVec_mul (a b : Mat3) (v : Vec3) :
    (a.mul b).mulVec v = a.mulVec (b.mulVec v) := by
  simp only [Mat3.mul, Mat3.mulVec, Vec3.dot, Mat3.col0, Mat3.col1, Mat3.col2, Vec3.mk.injEq]
  refine ⟨by ring, by ring, by ring⟩

/-- The 3-1-3 perifocal-to-inertial rotation preserves the dot product. -/
theorem pqw_to_eci_dot (el : KeplerElements) (u v : Vec3) :
    ((pqw_to_eci el).mulVec u).dot ((pqw_to_eci el).mulVec v) = u.dot v := by
  rw [pqw_to_eci, mulVec_mul, mulVec_mul, mulVec_mul, mulVec_mul, rotZ_dot, rotX_dot, rotZ_dot]

/-- Lagrange identity for the cross product. -/
theorem cross_normSq (u v : Vec3) :
    (u.cross v).normSq = u.normSq * v.normSq - (u.dot v) ^ 2 := by
  simp only [Vec3.cross, Vec3.normSq, Vec3.dot]
  ring

/-- The squared norm is the self dot product. -/
theorem normSq_eq_dot (v : Vec3) : v.normSq = v.dot v := by
  simp only [Vec3.normSq, Vec3.dot]

/-- The perifocal-to-inertial rotation preserves the norm of cross products. -/
theorem pqw_cross_norm (el : KeplerElements) (u v : Vec3) :
    (((pqw_to_eci el).mulVec u).cross ((pqw_to_eci el).mulVec v)).norm = (u.cross v).norm := by
  have hp : ∀ w : Vec3, ((pqw_to_eci el).mulVec w).normSq = w.normSq := fun w => by
    rw [normSq_eq_dot, normSq_eq_dot, pqw_to_eci_dot]
  unfold Vec3.norm
  congr 1
  rw [cross_normSq, cross_normSq, pqw_to_eci_dot, hp, hp]

/-- For any true anomaly value, the Cartesian state produced by
`to_cartesian` carries specific angular momentum of magnitude
sqrt(mu a (1 - e^2)) exactly. -/
theorem kepler_momentum_from_nu (el : KeplerElements) (nu : ℝ)
    (ha : 0 < el.semi_major_axis_m) (he0 : 0 ≤ el.eccentricity)
    (he1 : el.eccentricity < 1) :
    (((pqw_to_eci el).mulVec (kepler_r_pqw el nu)).cross
        ((pqw_to_eci el).mulVec (kepler_v_pqw el nu))).norm =
      Real.sqrt (earth_mu_m3_s2 * el.semi_major_axis_m * (1 - el.eccentricity ^ 2)) := by
  have hp : 0 < kepler_p el := by
    rw [kepler_p]
    have h2 : el.eccentricity * el.eccentricity < 1 := by nlinarith
    exact mul_pos ha (by linarith)
  have hden : 0 < 1.0 + el.eccentricity * Real.cos nu := by
    have h1 := Real.neg_one_le_cos nu
    have h2 := Real.cos_le_one nu
    nlinarith
  have hmu : (0 : ℝ) < earth_mu_m3_s2 := by norm_num [earth_mu_m3_s2]
  have hr : kepler_r el nu * (1.0 + el.eccentricity * Real.cos nu) = kepler_p el := by
    rw [kepler_r]
    field_simp
  have hs := Real.sin_sq_add_cos_sq nu
  have hcross : (kepler_r_pqw el nu).cross (kepler_v_pqw el nu) =
      ⟨0, 0, kepler_h_factor el * kepler_p el⟩ := by
    simp only [kepler_r_pqw, kepler_v_pqw, Vec3.cross, Vec3.mk.injEq]
    refine ⟨by ring, by ring, ?_⟩
    linear_combination kepler_h_factor el * hr + kepler_h_factor el * kepler_r el nu * hs
  rw [pqw_cross_norm, hcross, Vec3.norm, Vec3.normSq]
  have hhp : (0 : ℝ) ≤ kepler_h_factor el * kepler_p el :=
    mul_nonneg (Real.sqrt_nonneg _) hp.le
  rw [show (0 : ℝ) * 0 + 0 * 0 +
      kepler_h_factor el * kepler_p el * (kepler_h_factor el * kepler_p el) =
      (kepler_h_factor el * kepler_p el) ^ 2 by ring]
  rw [Real.sqrt_sq hhp, kepler_h_factor]
  have hmp : earth_mu_m3_s2 / kepler_p el * kepler_p el ^ 2 = earth_mu_m3_s2 * kepler_p el := by
    field_simp
    ring
  rw [show earth_mu_m3_s2 * el.semi_major_axis_m * (1 - el.eccentricity ^ 2) =
      earth_mu_m3_s2 * kepler_p el by rw [kepler_p]; ring, ← hmp]
  rw [Real.sqrt_mul (by positivity) (kepler_p el ^ 2), Real.sqrt_sq hp.le]

/-- C5: for every Keplerian element set with a > 0 and e in [0,1), the pair
(r, v) returned by `to_cartesian` satisfies
| ‖r x v‖ - sqrt(mu a (1 - e^2)) | <= 1e-6 with mu = 3.986004418e14; the
identity holds exactly for whatever eccentric anomaly the Newton-Raphson
loop produced, converged or not. -/
theorem c5_angular_momentum (el : KeplerElements)
    (ha : 0 < el.semi_major_axis_m) (he0 : 0 ≤ el.eccentricity)
    (he1 : el.eccentricity < 1) :
    |((to_cartesian el).1.cross (to_cartesian el).2).norm -
      Real.sqrt (earth_mu_m3_s2 * el.semi_major_axis_m * (1 - el.eccentricity ^ 2))| ≤ 1e-6 := by
  rw [to_cartesian]
  simp only [cartesianFromAnomaly]
  rw [kepler_momentum_from_nu el _ ha he0 he1, sub_self, abs_zero]
  norm_num

/-- Witness for C5 at the concrete element set `c5_elements`. -/
theorem c5_witness :
    0 < c5_elements.semi_major_axis_m ∧ 0 ≤ c5_elements.eccentricity ∧
      c5_elements.eccentricity < 1 ∧
      |((to_cartesian c5_elements).1.cross (to_cartesian c5_elements).2).norm -
        Real.sqrt (earth_mu_m3_s2 * c5_elements.semi_major_axis_m *
          (1 - c5_elements.eccentricity ^ 2))| ≤ 1e-6 :=
  ⟨by norm_num [c5_elements], by norm_num [c5_elements], by norm_num [c5_elements],
    c5_angular_momentum c5_elements (by norm_num [c5_elements]) (by norm_num [c5_elements])
      (by norm_num [c5_elements])⟩

/-- Witness for C10 at the HyMu-80 parameters and input (0, 0, 1). -/
theorem c10_witness :
    (0 : ℝ) < JAParams.hymu80.ms ∧
      |magnetization_derivative JAParams.hymu80 0 0 1| ≤ ja_max_chi JAParams.hymu80 * |1| :=
  ⟨by norm_num [JAParams.hymu80],
    c10_rate_bound JAParams.hymu80 0 0 1 (by norm_num [JAParams.hymu80])⟩
